import Mathlib

/-!
Shallow embedding of `src/main.py` (a CLI that base64-encodes a PDF, sends it
to a remote OCR service and writes the per-page markdown to a file).

Pure string manipulation (`encode_pdf`'s base64 step, `write_markdown`'s
formatting) is embedded as Lean functions on byte lists and strings.  The
effectful pipeline `run_ocr` / `main` is embedded as a function of its
environment: the credential variable (`Option String`), the result of reading
the PDF bytes (`Except FsError (List Nat)`), and the OCR client's `process`
call (`OcrRequest → Except OcrError OCRResponse`).  Besides the Python result
(normal return or raised exception) it returns the trace of side effects the
run performs, so that claims about what is read, sent and written are
statable.
-/

namespace MistralOcr

/-- A page of the OCR response: `page.index` (zero-based) and `page.markdown`. -/
structure Page where
  index : Nat
  markdown : String
deriving DecidableEq

/-- The OCR response object: an ordered sequence of pages. -/
structure OCRResponse where
  pages : List Page
deriving DecidableEq

/-- Whitespace for Python's `str.rstrip()` / `str.strip()` with no argument
(the ASCII whitespace characters; the program's headings and separators are
ASCII). -/
def isPyWhitespace (c : Char) : Bool :=
  c = ' ' || c = '\t' || c = '\n' || c = '\x0d' || c = '\x0b' || c = '\x0c'

/-- Python `s.rstrip()`: remove trailing whitespace. -/
def pyRstrip (s : String) : String :=
  String.mk (s.data.reverse.dropWhile isPyWhitespace).reverse

/-- Python `s.strip()`: remove leading and trailing whitespace.  (Not used by
the source; stated for comparison with the spec's words "trimmed".) -/
def pyStrip (s : String) : String :=
  String.mk ((s.data.dropWhile isPyWhitespace).reverse.dropWhile isPyWhitespace).reverse

/-- The two strings the loop body of `write_markdown` appends for one page:
`f"# Page {page.index + 1}\n\n"` and `page.markdown.rstrip() + "\n\n"`. -/
def pageChunk (page : Page) : String :=
  ("# Page " ++ toString (page.index + 1) ++ "\n\n") ++ (pyRstrip page.markdown ++ "\n\n")

/-- `"".join(output_lines)` over the loop of `write_markdown`. -/
def renderPages : List Page → String
  | [] => ""
  | page :: rest => pageChunk page ++ renderPages rest

/-- The text `write_markdown(output_path, response)` writes to `output_path`. -/
def writeMarkdownContent (response : OCRResponse) : String :=
  renderPages response.pages

/-- Modelled from the spec: a per-page chunk whose heading number is the
page's POSITION in the sequence (1-based), as the claim reads the format. -/
def posChunk (pos : Nat) (page : Page) : String :=
  ("# Page " ++ toString (pos + 1) ++ "\n\n") ++ (pyRstrip page.markdown ++ "\n\n")

/-- Modelled from the spec: render pages numbering them by position,
starting at position `pos`. -/
def renderByPosition : Nat → List Page → String
  | _, [] => ""
  | pos, page :: rest => posChunk pos page ++ renderByPosition (pos + 1) rest

/-- Modelled from the spec: the output content with headings numbered by
1-based position of the page in the sequence. -/
def contentByPosition (response : OCRResponse) : String :=
  renderByPosition 0 response.pages

/-- Modelled from the spec: a per-page chunk whose text is trimmed of
surrounding whitespace on BOTH sides, as claim C4 reads "trimmed". -/
def stripChunk (page : Page) : String :=
  ("# Page " ++ toString (page.index + 1) ++ "\n\n") ++ (pyStrip page.markdown ++ "\n\n")

/-- Modelled from the spec: render with both-sides-trimmed page text. -/
def renderPagesStripped : List Page → String
  | [] => ""
  | page :: rest => stripChunk page ++ renderPagesStripped rest

/-- Modelled from the spec: the output content with both-sides-trimmed text. -/
def contentByStrip (response : OCRResponse) : String :=
  renderPagesStripped response.pages

/-- The base64 alphabet of RFC 4648, used by Python's `base64.b64encode`. -/
def base64Table : String :=
  "ABCDEFGHIJKLMNOPQRSTUVWXYZabcdefghijklmnopqrstuvwxyz0123456789+/"

/-- The base64 character for a 6-bit value. -/
def b64Char (n : Nat) : Char :=
  base64Table.data.getD n 'A'

/-- `base64.b64encode(data).decode("utf-8")` on a list of bytes (each < 256):
groups of three bytes become four alphabet characters; a final group of one
or two bytes is padded with `=`. -/
def b64encode : List Nat → String
  | [] => ""
  | [b0] =>
    String.mk [b64Char (b0 / 4), b64Char (b0 % 4 * 16), '=', '=']
  | [b0, b1] =>
    String.mk [b64Char (b0 / 4), b64Char (b0 % 4 * 16 + b1 / 16), b64Char (b1 % 16 * 4), '=']
  | b0 :: b1 :: b2 :: rest =>
    String.mk [b64Char (b0 / 4), b64Char (b0 % 4 * 16 + b1 / 16),
      b64Char (b1 % 16 * 4 + b2 / 64), b64Char (b2 % 64)] ++ b64encode rest

/-- How `pdf_path.read_bytes()` can fail: `FileNotFoundError` (the only kind
`encode_pdf` catches) or any other `OSError` (permissions, directory, ...),
carrying its own message. -/
inductive FsError where
  | fileNotFound : FsError
  | otherOSError : String → FsError
deriving DecidableEq

/-- How `client.ocr.process(**kwargs)` can fail: an `SDKError` (the only kind
`run_ocr` catches) or any other exception, carrying its own message. -/
inductive OcrError where
  | sdkError : String → OcrError
  | otherExc : String → OcrError
deriving DecidableEq

/-- The Python exceptions that can reach `main`'s `except Exception` handler. -/
inductive PyError where
  | fileNotFoundError : String → PyError
  | runtimeError : String → PyError
  | otherError : String → PyError
deriving DecidableEq

/-- `str(exc)` for the exceptions above. -/
def pyErrorMsg : PyError → String
  | PyError.fileNotFoundError m => m
  | PyError.runtimeError m => m
  | PyError.otherError m => m

/-- Split a character list on `/`, like `str.split("/")`. -/
def splitOnSlash : List Char → List (List Char)
  | [] => [[]]
  | c :: rest =>
    if c = '/' then [] :: splitOnSlash rest
    else
      match splitOnSlash rest with
      | [] => [[c]]
      | g :: gs => (c :: g) :: gs

/-- Join component lists with `/`. -/
def joinSlash : List (List Char) → List Char
  | [] => []
  | [g] => g
  | g :: gs => g ++ '/' :: joinSlash gs

/-- `Path(p).name`: the final path component. -/
def pathName (p : String) : String :=
  String.mk ((splitOnSlash p.data).getLastD [])

/-- `Path(p).parent` rendered as a string: all but the final component,
`"."` when there is none. -/
def pathParent (p : String) : String :=
  if (splitOnSlash p.data).length ≤ 1 then "."
  else String.mk (joinSlash (splitOnSlash p.data).dropLast)

/-- Python truthiness test `not api_key` for `api_key: Optional[str]`:
true exactly for `None` and the empty string. -/
def pyFalsyStr : Option String → Bool
  | none => true
  | some s => s == ""

/-- `encode_pdf(pdf_path)`, given the outcome of `pdf_path.read_bytes()`:
a `FileNotFoundError` is re-raised with the message `PDF not found: <path>`;
any other `OSError` propagates; on success the bytes are base64-encoded. -/
def encode_pdf (pdf_path : String) (readRes : Except FsError (List Nat)) :
    Except PyError String :=
  match readRes with
  | Except.error FsError.fileNotFound =>
    Except.error (PyError.fileNotFoundError ("PDF not found: " ++ pdf_path))
  | Except.error (FsError.otherOSError m) => Except.error (PyError.otherError m)
  | Except.ok data => Except.ok (b64encode data)

/-- The keyword arguments `run_ocr` passes to `client.ocr.process`: the
`document` dict, the `model`, and `include_image_base64` only when the
`--include-images` flag was given. -/
structure OcrRequest where
  model : String
  document_type : String
  document_url : String
  document_name : String
  include_image_base64 : Option Bool
deriving DecidableEq

/-- The `kwargs` built at lines 37-45 of `src/main.py`. -/
def buildRequest (pdf_path base64_pdf model : String) (include_images : Bool) :
    OcrRequest :=
  { model := model
    document_type := "document_url"
    document_url := "data:application/pdf;base64," ++ base64_pdf
    document_name := pathName pdf_path
    include_image_base64 := if include_images then some true else none }

/-- The observable side effects of a run, in order. -/
inductive Effect where
  | readPdf : String → Effect
  | ocrCall : OcrRequest → Effect
  | mkdirParents : String → Effect
  | writeFile : String → String → Effect
deriving DecidableEq

/-- `run_ocr(pdf_path, model, include_images, output_path)`: check the
credential, read and encode the PDF, call the OCR client, write the markdown.
Returns the Python outcome (`ok` with `str(output_path)` or the raised
exception) together with the trace of effects performed. -/
def run_ocr (env : Option String) (pdf_path : String)
    (readRes : Except FsError (List Nat)) (model : String) (include_images : Bool)
    (output_path : String) (process : OcrRequest → Except OcrError OCRResponse) :
    Except PyError String × List Effect :=
  if pyFalsyStr env then
    (Except.error (PyError.runtimeError "MISTRAL_API_KEY environment variable is not set"), [])
  else
    match encode_pdf pdf_path readRes with
    | Except.error e => (Except.error e, [Effect.readPdf pdf_path])
    | Except.ok base64_pdf =>
      match process (buildRequest pdf_path base64_pdf model include_images) with
      | Except.error (OcrError.sdkError m) =>
        (Except.error (PyError.runtimeError ("OCR request failed: " ++ m)),
         [Effect.readPdf pdf_path,
          Effect.ocrCall (buildRequest pdf_path base64_pdf model include_images)])
      | Except.error (OcrError.otherExc m) =>
        (Except.error (PyError.otherError m),
         [Effect.readPdf pdf_path,
          Effect.ocrCall (buildRequest pdf_path base64_pdf model include_images)])
      | Except.ok response =>
        (Except.ok output_path,
         [Effect.readPdf pdf_path,
          Effect.ocrCall (buildRequest pdf_path base64_pdf model include_images),
          Effect.mkdirParents (pathParent output_path),
          Effect.writeFile output_path (writeMarkdownContent response)])

/-- What `main()` leaves observable: the exit code and the single line
printed to stdout or stderr. -/
structure ProgResult where
  exitCode : Nat
  stdoutLine : Option String
  stderrLine : Option String
deriving DecidableEq

/-- `main()` after argument parsing: run `run_ocr`; on any exception print
`Error: <message>` to stderr and exit 1; on success print the output path. -/
def mainRun (env : Option String) (pdf_path : String)
    (readRes : Except FsError (List Nat)) (model : String) (include_images : Bool)
    (output_path : String) (process : OcrRequest → Except OcrError OCRResponse) :
    ProgResult × List Effect :=
  match run_ocr env pdf_path readRes model include_images output_path process with
  | (Except.ok output_file, effs) =>
    ({ exitCode := 0
       stdoutLine := some ("OCR markdown written to " ++ output_file)
       stderrLine := none }, effs)
  | (Except.error e, effs) =>
    ({ exitCode := 1
       stdoutLine := none
       stderrLine := some ("Error: " ++ pyErrorMsg e) }, effs)

/-- `needle.isPrefixOf hay` spelled out on character lists. -/
def startsWithChars : List Char → List Char → Bool
  | _, [] => true
  | [], _ :: _ => false
  | a :: hay, b :: needle => a = b && startsWithChars hay needle

/-- Substring containment on character lists. -/
def containsSub : List Char → List Char → Bool
  | [], needle => needle.isEmpty
  | c :: hay, needle => startsWithChars (c :: hay) needle || containsSub hay needle

/-- `needle in hay` for strings (substring containment). -/
def strContains (hay needle : String) : Bool :=
  containsSub hay.data needle.data

/-- Whether the run's stderr line contains `needle` as a substring. -/
def stderrContains (res : ProgResult) (needle : String) : Bool :=
  match res.stderrLine with
  | none => false
  | some s => strContains s needle

/-- Whether an effect touches the output path (creates its directories or
writes the file). -/
def touchesOutput : Effect → Bool
  | Effect.mkdirParents _ => true
  | Effect.writeFile _ _ => true
  | _ => false

/-! Helper lemmas about substring containment and `pyRstrip`. -/

lemma startsWithChars_nil_needle : ∀ hay : List Char, startsWithChars hay [] = true := by
  intro hay
  cases hay <;> rfl

lemma startsWithChars_append_self : ∀ (n t : List Char), startsWithChars (n ++ t) n = true
  | [], t => startsWithChars_nil_needle t
  | a :: as, t => by
    simp [startsWithChars, startsWithChars_append_self as t]

lemma containsSub_nil_needle : ∀ hay : List Char, containsSub hay [] = true
  | [] => rfl
  | _ :: hay => by simp [containsSub, startsWithChars]

lemma containsSub_self_append (n t : List Char) : containsSub (n ++ t) n = true := by
  cases n with
  | nil => simpa using containsSub_nil_needle t
  | cons a as =>
    show containsSub (a :: (as ++ t)) (a :: as) = true
    rw [containsSub]
    have h1 : startsWithChars (a :: (as ++ t)) (a :: as) = true :=
      startsWithChars_append_self (a :: as) t
    rw [h1, Bool.true_or]

lemma containsSub_append_left (pre hay n : List Char) (h : containsSub hay n = true) :
    containsSub (pre ++ hay) n = true := by
  induction pre with
  | nil => simpa using h
  | cons c cs ih => simp [containsSub, ih]

lemma strContains_split (pre needle tail : String) :
    strContains (pre ++ (needle ++ tail)) needle = true := by
  unfold strContains
  rw [String.data_append, String.data_append]
  exact containsSub_append_left pre.data _ _ (containsSub_self_append needle.data tail.data)

lemma strContains_self_append (n t : String) : strContains (n ++ t) n = true := by
  unfold strContains
  rw [String.data_append]
  exact containsSub_self_append _ _

lemma strContains_append_left (pre s needle : String) (h : strContains s needle = true) :
    strContains (pre ++ s) needle = true := by
  unfold strContains at h ⊢
  rw [String.data_append]
  exact containsSub_append_left _ _ _ h

lemma pyRstrip_data (s : String) :
    s.data = (pyRstrip s).data ++ (s.data.reverse.takeWhile isPyWhitespace).reverse := by
  show s.data =
    (s.data.reverse.dropWhile isPyWhitespace).reverse ++
      (s.data.reverse.takeWhile isPyWhitespace).reverse
  conv_lhs =>
    rw [← List.reverse_reverse s.data,
      ← List.takeWhile_append_dropWhile isPyWhitespace s.data.reverse]
  rw [List.reverse_append]

lemma head_dropWhile_not (p : Char → Bool) :
    ∀ (l : List Char) (c : Char), (l.dropWhile p).head? = some c → p c = false := by
  intro l
  induction l with
  | nil => intro c h; simp [List.dropWhile] at h
  | cons a t ih =>
    intro c h
    rw [List.dropWhile_cons] at h
    by_cases hp : p a
    · exact ih c (by simpa [hp] using h)
    · have hac : a = c := by simpa [hp] using h
      subst hac
      exact Bool.eq_false_iff.mpr hp

lemma pyRstrip_getLast (s : String) :
    ((pyRstrip s).data.getLast?).all (fun c => !isPyWhitespace c) = true := by
  show (((s.data.reverse.dropWhile isPyWhitespace).reverse.getLast?).all
    (fun c => !isPyWhitespace c)) = true
  rw [List.getLast?_reverse]
  cases h : (s.data.reverse.dropWhile isPyWhitespace).head? with
  | none => rfl
  | some c =>
    have := head_dropWhile_not isPyWhitespace s.data.reverse c h
    simp [Option.all, this]

lemma pyRstrip_dropped_whitespace (s : String) :
    ((s.data.drop (pyRstrip s).data.length).all isPyWhitespace) = true := by
  conv_lhs => rw [pyRstrip_data s, List.drop_left]
  rw [List.all_eq_true]
  intro x hx
  exact List.mem_takeWhile_imp (List.mem_reverse.mp hx)

lemma renderPages_eq_byPosition : ∀ (ps : List Page) (k : Nat),
    (∀ i (hi : i < ps.length), (ps.get ⟨i, hi⟩).index = k + i) →
    renderPages ps = renderByPosition k ps := by
  intro ps
  induction ps with
  | nil => intro k _; rfl
  | cons page rest ih =>
    intro k h
    have h0 : page.index = k := by simpa using h 0 (Nat.succ_pos _)
    have ht : ∀ i (hi : i < rest.length), (rest.get ⟨i, hi⟩).index = (k + 1) + i := by
      intro i hi
      have hstep := h (i + 1) (Nat.succ_lt_succ hi)
      rw [List.get_cons_succ] at hstep
      exact hstep.trans (by omega)
    show pageChunk page ++ renderPages rest = posChunk k page ++ renderByPosition (k + 1) rest
    rw [ih (k + 1) ht]
    unfold pageChunk posChunk
    rw [h0]

lemma strContains_renderPages (p : Page) :
    ∀ ps : List Page, p ∈ ps → strContains (renderPages ps) (pageChunk p) = true := by
  intro ps
  induction ps with
  | nil => intro h; cases h
  | cons q rest ih =>
    intro h
    rcases List.mem_cons.mp h with h1 | h2
    · subst h1
      exact strContains_self_append (pageChunk p) (renderPages rest)
    · exact strContains_append_left (pageChunk q) _ _ (ih h2)

lemma mainRun_snd (env : Option String) (pdf_path : String)
    (readRes : Except FsError (List Nat)) (model : String) (include_images : Bool)
    (output_path : String) (process : OcrRequest → Except OcrError OCRResponse) :
    (mainRun env pdf_path readRes model include_images output_path process).snd =
      (run_ocr env pdf_path readRes model include_images output_path process).snd := by
  unfold mainRun
  cases h : run_ocr env pdf_path readRes model include_images output_path process with
  | mk r effs => cases r <;> simp

lemma ocrCall_mem_run (env : Option String) (pdf_path : String)
    (readRes : Except FsError (List Nat)) (model : String) (include_images : Bool)
    (output_path : String) (process : OcrRequest → Except OcrError OCRResponse)
    (req : OcrRequest)
    (h : Effect.ocrCall req ∈
      (run_ocr env pdf_path readRes model include_images output_path process).snd) :
    ∃ bytes, readRes = Except.ok bytes ∧
      req = buildRequest pdf_path (b64encode bytes) model include_images := by
  by_cases hk : pyFalsyStr env
  · simp [run_ocr, hk] at h
  · cases readRes with
    | error e =>
      cases e <;> simp [run_ocr, encode_pdf, hk] at h
    | ok bytes =>
      refine ⟨bytes, rfl, ?_⟩
      rcases hp : process (buildRequest pdf_path (b64encode bytes) model include_images) with
        e | resp
      · cases e <;> simp [run_ocr, encode_pdf, hk, hp] at h <;> exact h
      · simp [run_ocr, encode_pdf, hk, hp] at h
        exact h

/-! Claim theorems. -/

/-- C1 counterexample: the heading number written by `write_markdown` is
`page.index + 1`, not the page's 1-based position; a response whose single
page carries index 1 is written as `# Page 2`, not `# Page 1`. -/
theorem c1_index_vs_position_counterexample :
    writeMarkdownContent (OCRResponse.mk [Page.mk 1 "A"]) = "# Page 2\n\nA\n\n" ∧
    contentByPosition (OCRResponse.mk [Page.mk 1 "A"]) = "# Page 1\n\nA\n\n" ∧
    writeMarkdownContent (OCRResponse.mk [Page.mk 1 "A"]) ≠
      contentByPosition (OCRResponse.mk [Page.mk 1 "A"]) := by
  refine ⟨rfl, rfl, ?_⟩
  decide

/-- C1 (amended): the heading number is the page's own zero-based `index`
field plus one; when every page's index equals its position in the sequence
(as the real API returns them), the output coincides with the position-based
format the claim describes. -/
theorem c1_heading_matches_position (response : OCRResponse)
    (h : ∀ i (hi : i < response.pages.length), (response.pages.get ⟨i, hi⟩).index = i) :
    writeMarkdownContent response = contentByPosition response := by
  unfold writeMarkdownContent contentByPosition
  exact renderPages_eq_byPosition response.pages 0 (by intro i hi; simpa using h i hi)

/-- C1 witness: the amended theorem applied to the two-page response with
sequential indices. -/
theorem c1_witness :
    writeMarkdownContent (OCRResponse.mk [Page.mk 0 "A", Page.mk 1 "B"]) =
      contentByPosition (OCRResponse.mk [Page.mk 0 "A", Page.mk 1 "B"]) :=
  c1_heading_matches_position (OCRResponse.mk [Page.mk 0 "A", Page.mk 1 "B"]) (by decide)

/-- C2 counterexample: `run_ocr` wraps only `SDKError`; an exception of any
other class raised by `client.ocr.process` reaches `main` unwrapped, so the
program exits 1 but the message does not contain `OCR request failed`. -/
theorem c2_unwrapped_exception_counterexample :
    (mainRun (some "key") "doc.pdf" (Except.ok [65]) "mistral-ocr-latest" false "out.md"
        (fun _ => Except.error (OcrError.otherExc "boom"))).fst =
      ProgResult.mk 1 none (some "Error: boom") ∧
    stderrContains (mainRun (some "key") "doc.pdf" (Except.ok [65]) "mistral-ocr-latest" false
        "out.md" (fun _ => Except.error (OcrError.otherExc "boom"))).fst
      "OCR request failed" = false :=
  ⟨rfl, rfl⟩

/-- C2 (amended): an `SDKError` raised by `client.ocr.process` makes the
program exit with code 1 and print a message containing `OCR request failed`;
an exception of any other class still exits with code 1, but with its own
message. -/
theorem c2_sdk_error_wrapped (env : Option String) (pdf_path model : String)
    (include_images : Bool) (output_path : String) (bytes : List Nat) (m : String)
    (hkey : pyFalsyStr env = false) :
    (mainRun env pdf_path (Except.ok bytes) model include_images output_path
        (fun _ => Except.error (OcrError.sdkError m))).fst.exitCode = 1 ∧
    stderrContains (mainRun env pdf_path (Except.ok bytes) model include_images output_path
        (fun _ => Except.error (OcrError.sdkError m))).fst "OCR request failed" = true ∧
    (mainRun env pdf_path (Except.ok bytes) model include_images output_path
        (fun _ => Except.error (OcrError.otherExc m))).fst.exitCode = 1 := by
  simp only [mainRun, run_ocr, encode_pdf, hkey, Bool.false_eq_true, if_false]
  refine ⟨trivial, ?_, trivial⟩
  show strContains ("Error: " ++ ("OCR request failed: " ++ m)) "OCR request failed" = true
  have hlit : ("OCR request failed: " : String) = "OCR request failed" ++ ": " := by decide
  rw [hlit, String.append_assoc]
  exact strContains_split "Error: " "OCR request failed" (": " ++ m)

/-- C2 witness: the amended theorem applied to a concrete configuration. -/
theorem c2_witness :
    (mainRun (some "key") "doc.pdf" (Except.ok [65]) "mistral-ocr-latest" false "out.md"
        (fun _ => Except.error (OcrError.sdkError "quota exceeded"))).fst.exitCode = 1 ∧
    stderrContains (mainRun (some "key") "doc.pdf" (Except.ok [65]) "mistral-ocr-latest" false
        "out.md" (fun _ => Except.error (OcrError.sdkError "quota exceeded"))).fst
      "OCR request failed" = true ∧
    (mainRun (some "key") "doc.pdf" (Except.ok [65]) "mistral-ocr-latest" false "out.md"
        (fun _ => Except.error (OcrError.otherExc "quota exceeded"))).fst.exitCode = 1 :=
  c2_sdk_error_wrapped (some "key") "doc.pdf" "mistral-ocr-latest" false "out.md" [65]
    "quota exceeded" (by decide)

/-- C3: a stubbed successful response with pages `[(0, "A"), (1, "B")]` is
formatted as `# Page 1\n\nA\n\n# Page 2\n\nB\n\n` and written verbatim to the
output file. -/
theorem c3_stubbed_success :
    writeMarkdownContent (OCRResponse.mk [Page.mk 0 "A", Page.mk 1 "B"]) =
      "# Page 1\n\nA\n\n# Page 2\n\nB\n\n" ∧
    (mainRun (some "key") "doc.pdf" (Except.ok [37, 80, 68, 70]) "mistral-ocr-latest" false
        "ocr_output.md"
        (fun _ => Except.ok (OCRResponse.mk [Page.mk 0 "A", Page.mk 1 "B"]))).snd.contains
      (Effect.writeFile "ocr_output.md" "# Page 1\n\nA\n\n# Page 2\n\nB\n\n") = true ∧
    (mainRun (some "key") "doc.pdf" (Except.ok [37, 80, 68, 70]) "mistral-ocr-latest" false
        "ocr_output.md"
        (fun _ => Except.ok (OCRResponse.mk [Page.mk 0 "A", Page.mk 1 "B"]))).fst.exitCode
      = 0 := by
  refine ⟨rfl, ?_, rfl⟩
  decide

/-- C4 counterexample: `write_markdown` applies `rstrip()`, so leading
whitespace in a page's markdown is kept; the claim's both-sides trim would
drop it. -/
theorem c4_leading_whitespace_counterexample :
    writeMarkdownContent (OCRResponse.mk [Page.mk 0 " A"]) = "# Page 1\n\n A\n\n" ∧
    contentByStrip (OCRResponse.mk [Page.mk 0 " A"]) = "# Page 1\n\nA\n\n" ∧
    writeMarkdownContent (OCRResponse.mk [Page.mk 0 " A"]) ≠
      contentByStrip (OCRResponse.mk [Page.mk 0 " A"]) := by
  refine ⟨rfl, rfl, ?_⟩
  decide

/-- C4 (amended): for every page of the response, the output contains the
page's chunk `# Page <index+1>` followed by `rstrip`-ed markdown and the
two-newline separator; the written text is a literal prefix of the page's
markdown (leading whitespace preserved), the removed suffix is all
whitespace, and the written text ends in a non-whitespace character. -/
theorem c4_trailing_trim_only (response : OCRResponse) (p : Page)
    (hp : p ∈ response.pages) :
    strContains (writeMarkdownContent response) (pageChunk p) = true ∧
    startsWithChars p.markdown.data (pyRstrip p.markdown).data = true ∧
    (p.markdown.data.drop (pyRstrip p.markdown).data.length).all isPyWhitespace = true ∧
    ((pyRstrip p.markdown).data.getLast?).all (fun c => !isPyWhitespace c) = true := by
  refine ⟨strContains_renderPages p response.pages hp, ?_,
    pyRstrip_dropped_whitespace p.markdown, pyRstrip_getLast p.markdown⟩
  conv_lhs => rw [pyRstrip_data p.markdown]
  exact startsWithChars_append_self (pyRstrip p.markdown).data _

/-- C4 witness: the amended theorem applied to a one-page response whose
markdown has both leading and trailing whitespace. -/
theorem c4_witness :
    strContains (writeMarkdownContent (OCRResponse.mk [Page.mk 0 " A "]))
      (pageChunk (Page.mk 0 " A ")) = true ∧
    startsWithChars (Page.mk 0 " A ").markdown.data
      (pyRstrip (Page.mk 0 " A ").markdown).data = true ∧
    ((Page.mk 0 " A ").markdown.data.drop
      (pyRstrip (Page.mk 0 " A ").markdown).data.length).all isPyWhitespace = true ∧
    ((pyRstrip (Page.mk 0 " A ").markdown).data.getLast?).all
      (fun c => !isPyWhitespace c) = true :=
  c4_trailing_trim_only (OCRResponse.mk [Page.mk 0 " A "]) (Page.mk 0 " A ") (by decide)

/-- C5 counterexample: `encode_pdf` catches only `FileNotFoundError`; a read
that fails for another reason (here a permission error on an existing file,
so the path does not name an existing readable file) exits 1 with the OS
error's own message, which does not contain `PDF not found`. -/
theorem c5_unreadable_counterexample :
    (mainRun (some "key") "doc.pdf"
        (Except.error (FsError.otherOSError "Permission denied: doc.pdf"))
        "mistral-ocr-latest" false "out.md" (fun _ => Except.ok (OCRResponse.mk []))).fst =
      ProgResult.mk 1 none (some "Error: Permission denied: doc.pdf") ∧
    stderrContains (mainRun (some "key") "doc.pdf"
        (Except.error (FsError.otherOSError "Permission denied: doc.pdf"))
        "mistral-ocr-latest" false "out.md" (fun _ => Except.ok (OCRResponse.mk []))).fst
      "PDF not found" = false :=
  ⟨rfl, rfl⟩

/-- C5 (amended): when reading the PDF raises `FileNotFoundError` (the path
does not exist), the program exits with code 1 and the stderr message
contains `PDF not found`; other read failures still exit 1 but keep the OS
error's message. -/
theorem c5_missing_pdf_message (env : Option String) (pdf_path model : String)
    (include_images : Bool) (output_path : String)
    (process : OcrRequest → Except OcrError OCRResponse)
    (hkey : pyFalsyStr env = false) :
    (mainRun env pdf_path (Except.error FsError.fileNotFound) model include_images
        output_path process).fst.exitCode = 1 ∧
    stderrContains (mainRun env pdf_path (Except.error FsError.fileNotFound) model
        include_images output_path process).fst "PDF not found" = true := by
  simp only [mainRun, run_ocr, encode_pdf, hkey, Bool.false_eq_true, if_false]
  refine ⟨trivial, ?_⟩
  show strContains ("Error: " ++ ("PDF not found: " ++ pdf_path)) "PDF not found" = true
  have hlit : ("PDF not found: " : String) = "PDF not found" ++ ": " := by decide
  rw [hlit, String.append_assoc]
  exact strContains_split "Error: " "PDF not found" (": " ++ pdf_path)

/-- C5 witness: the amended theorem applied to a concrete configuration. -/
theorem c5_witness :
    (mainRun (some "key") "missing.pdf" (Except.error FsError.fileNotFound)
        "mistral-ocr-latest" false "out.md"
        (fun _ => Except.ok (OCRResponse.mk []))).fst.exitCode = 1 ∧
    stderrContains (mainRun (some "key") "missing.pdf" (Except.error FsError.fileNotFound)
        "mistral-ocr-latest" false "out.md"
        (fun _ => Except.ok (OCRResponse.mk []))).fst "PDF not found" = true :=
  c5_missing_pdf_message (some "key") "missing.pdf" "mistral-ocr-latest" false "out.md"
    (fun _ => Except.ok (OCRResponse.mk [])) (by decide)

/-- C6: with the credential variable absent from the environment, the program
exits with code 1 and the stderr message contains `MISTRAL_API_KEY`, whatever
the other inputs are. -/
theorem c6_missing_key (pdf_path : String) (readRes : Except FsError (List Nat))
    (model : String) (include_images : Bool) (output_path : String)
    (process : OcrRequest → Except OcrError OCRResponse) :
    (mainRun none pdf_path readRes model include_images output_path process).fst.exitCode
      = 1 ∧
    stderrContains
      (mainRun none pdf_path readRes model include_images output_path process).fst
      "MISTRAL_API_KEY" = true :=
  ⟨rfl, rfl⟩

/-- C7: the request sent to `client.ocr.process` carries
`include_image_base64 = true` when the `--include-images` flag is set and has
no such key (modelled as `none`) when it is not. -/
theorem c7_include_images_flag (env : Option String) (pdf_path : String)
    (readRes : Except FsError (List Nat)) (model : String) (include_images : Bool)
    (output_path : String) (process : OcrRequest → Except OcrError OCRResponse)
    (req : OcrRequest)
    (hreq : Effect.ocrCall req ∈
      (mainRun env pdf_path readRes model include_images output_path process).snd) :
    req.include_image_base64 = (if include_images then some true else none) := by
  rw [mainRun_snd] at hreq
  rcases ocrCall_mem_run env pdf_path readRes model include_images output_path process req
    hreq with ⟨bytes, _, hbuild⟩
  rw [hbuild]
  rfl

/-- C7 witness: the concrete request the run with `--include-images` sends,
read off the effect trace. -/
theorem c7_witness :
    (buildRequest "doc.pdf" (b64encode [65]) "mistral-ocr-latest" true).include_image_base64
      = (if true then some true else none) :=
  c7_include_images_flag (some "key") "doc.pdf" (Except.ok [65]) "mistral-ocr-latest" true
    "out.md" (fun _ => Except.ok (OCRResponse.mk []))
    (buildRequest "doc.pdf" (b64encode [65]) "mistral-ocr-latest" true) (by decide)

/-- C8: every request reaching the OCR client describes the document with
`type = "document_url"`, `document_url` equal to the data-URL prefix followed
by the base64 encoding of the file's bytes, and `document_name` equal to the
input path's final component. -/
theorem c8_document_descriptor (env : Option String) (pdf_path : String)
    (bytes : List Nat) (model : String) (include_images : Bool) (output_path : String)
    (process : OcrRequest → Except OcrError OCRResponse) (req : OcrRequest)
    (hreq : Effect.ocrCall req ∈
      (mainRun env pdf_path (Except.ok bytes) model include_images output_path
        process).snd) :
    req.document_type = "document_url" ∧
    req.document_url = "data:application/pdf;base64," ++ b64encode bytes ∧
    req.document_name = pathName pdf_path := by
  rw [mainRun_snd] at hreq
  rcases ocrCall_mem_run env pdf_path (Except.ok bytes) model include_images output_path
    process req hreq with ⟨bytes2, hok, hbuild⟩
  injection hok with hb
  subst hb
  rw [hbuild]
  exact ⟨rfl, rfl, rfl⟩

/-- C8 witness: the descriptor of the concrete request found in the trace of
a run on the bytes `%PDF` at path `dir/doc.pdf`. -/
theorem c8_witness :
    (buildRequest "dir/doc.pdf" (b64encode [37, 80, 68, 70]) "mistral-ocr-latest"
        false).document_type = "document_url" ∧
    (buildRequest "dir/doc.pdf" (b64encode [37, 80, 68, 70]) "mistral-ocr-latest"
        false).document_url = "data:application/pdf;base64," ++ b64encode [37, 80, 68, 70] ∧
    (buildRequest "dir/doc.pdf" (b64encode [37, 80, 68, 70]) "mistral-ocr-latest"
        false).document_name = pathName "dir/doc.pdf" :=
  c8_document_descriptor (some "key") "dir/doc.pdf" [37, 80, 68, 70] "mistral-ocr-latest"
    false "out.md" (fun _ => Except.ok (OCRResponse.mk []))
    (buildRequest "dir/doc.pdf" (b64encode [37, 80, 68, 70]) "mistral-ocr-latest" false)
    (by decide)

/-- C9: a credential present but equal to the empty string behaves exactly
like an absent one: the run is identical to the `none` run, performs no
effects at all (the PDF is not read, the service is not contacted), exits
with code 1 and reports `MISTRAL_API_KEY`. -/
theorem c9_empty_key (pdf_path : String) (readRes : Except FsError (List Nat))
    (model : String) (include_images : Bool) (output_path : String)
    (process : OcrRequest → Except OcrError OCRResponse) :
    mainRun (some "") pdf_path readRes model include_images output_path process =
      mainRun none pdf_path readRes model include_images output_path process ∧
    (mainRun (some "") pdf_path readRes model include_images output_path process).snd
      = [] ∧
    (mainRun (some "") pdf_path readRes model include_images output_path
      process).fst.exitCode = 1 ∧
    stderrContains
      (mainRun (some "") pdf_path readRes model include_images output_path process).fst
      "MISTRAL_API_KEY" = true :=
  ⟨rfl, rfl, rfl, rfl⟩

/-- C10: on every failing run (exit code 1) the effect trace contains no
directory creation and no file write: the output path is only touched after
`client.ocr.process` has returned successfully. -/
theorem c10_no_output_on_failure (env : Option String) (pdf_path : String)
    (readRes : Except FsError (List Nat)) (model : String) (include_images : Bool)
    (output_path : String) (process : OcrRequest → Except OcrError OCRResponse)
    (hfail : (mainRun env pdf_path readRes model include_images output_path
      process).fst.exitCode = 1) :
    (mainRun env pdf_path readRes model include_images output_path process).snd.all
      (fun e => !touchesOutput e) = true := by
  rw [mainRun_snd]
  by_cases hk : pyFalsyStr env
  · simp [run_ocr, hk]
  · cases readRes with
    | error e =>
      cases e <;> simp [run_ocr, encode_pdf, hk, touchesOutput]
    | ok bytes =>
      rcases hp : process (buildRequest pdf_path (b64encode bytes) model include_images)
        with e | resp
      · cases e <;> simp [run_ocr, encode_pdf, hk, hp, touchesOutput]
      · exfalso
        simp [mainRun, run_ocr, encode_pdf, hk, hp] at hfail

/-- C10 witness: a concrete failing run (missing PDF) whose trace is free of
output-touching effects. -/
theorem c10_witness :
    (mainRun (some "key") "missing.pdf" (Except.error FsError.fileNotFound)
      "mistral-ocr-latest" false "out.md"
      (fun _ => Except.ok (OCRResponse.mk []))).snd.all (fun e => !touchesOutput e)
      = true :=
  c10_no_output_on_failure (some "key") "missing.pdf" (Except.error FsError.fileNotFound)
    "mistral-ocr-latest" false "out.md" (fun _ => Except.ok (OCRResponse.mk []))
    (by decide)

end MistralOcr
